import Mathlib

/-
  Verification development for the ghost-project job-lifecycle core.

  Shallow embedding of src/GhostSystems/python/product_generator.py
  (retry helper `post_to_printful`, the two fulfillment workers
  `create_printful_product` and `create_digital_product`, and the
  dispatcher `process_job`) and of the Oracle producer src/Oracle/brain.py
  (document constructors and `create_products_once`).

  Side effects are made explicit as an event trace: every call to the
  document store that updates the status field, every outbound remote
  call (Printful POST / Shopify save), and every backoff sleep is
  recorded as an `Event`.  External nondeterminism (the outcome of each
  remote attempt, whether a store update raises) is passed in as oracle
  parameters, so each Python function becomes a pure Lean function from
  its inputs and oracles to a trace and a result.
-/

namespace Ghost

/-- Observable side effects of the job-lifecycle core.  A
`statusWriteAttempt s ok` is a call `job_ref.update({"status": s})`;
`ok = false` means the store raised on that call.  `printfulPost` is one
`requests.post` to the Printful API, `shopifySave` one `save()` call on a
Shopify product, `sleep d` one `time.sleep(d)`. -/
inductive Event where
  | statusWriteAttempt (s : String) (ok : Bool)
  | printfulPost
  | shopifySave
  | sleep (d : Nat)
deriving DecidableEq, Repr

/-- Statuses passed to the store by `job_ref.update`, in trace order
(both failed and successful update calls). -/
def statusAttempts (evs : List Event) : List String :=
  evs.filterMap fun e =>
    match e with
    | .statusWriteAttempt s _ => some s
    | _ => none

/-- Whether an event is an outbound remote-creation call. -/
def isOutbound : Event → Bool
  | .printfulPost => true
  | .shopifySave => true
  | _ => false

/-- Number of outbound remote-creation calls in a trace. -/
def outboundCount (evs : List Event) : Nat :=
  evs.countP fun e => isOutbound e

/-- Whether an event is a Printful POST attempt. -/
def isPost : Event → Bool
  | .printfulPost => true
  | _ => false

/-- Number of Printful POST attempts in a trace. -/
def postCount (evs : List Event) : Nat :=
  evs.countP fun e => isPost e

/-- The sequence of backoff sleep durations in a trace. -/
def sleeps (evs : List Event) : List Nat :=
  evs.filterMap fun e =>
    match e with
    | .sleep d => some d
    | _ => none

/-- Python truthiness of an optional string field: `None` and the empty
string are falsy (`if not x`). -/
def strTruthy : Option String → Bool
  | none => false
  | some s => !(s == "")

/-- Python truthiness of an optional integer (`if not variant_id`). -/
def natOptTruthy : Option Nat → Bool
  | none => false
  | some n => !(n == 0)

/-- A job document as read by `job_doc.to_dict()`.  Optional fields model
keys that may be absent from the document (`dict.get` returns `None`);
`price` is accessed with `job_data["price"]`, so only its presence
matters for control flow.  `autoPublish` is read with a default of
`False`. -/
structure JobData where
  productType : Option String
  title : Option String
  description : Option String
  price : Option String
  imageUrl : Option String
  autoPublish : Bool
deriving DecidableEq, Repr

/-- Outcome of one `requests.post` attempt inside `post_to_printful`:
a transport/HTTP-level failure (`requests.post` or `raise_for_status`
raises a `RequestException`), an HTTP success whose body fails JSON
parsing (`response.json()` raises
`requests.exceptions.JSONDecodeError`, which since requests 2.27 is a
`RequestException` subclass and hence is caught by the same `except`
clause as transport failures), or an HTTP success with a parsed body
carrying the optional remote product id and name. -/
inductive AttemptOutcome where
  | transportError
  | httpOkInvalidJson
  | httpOkJson (productId : Option Nat) (productName : Option String)
deriving DecidableEq, Repr

/-- How `post_to_printful` terminates: a parsed response, a propagated
`RequestException` re-raised after a final transport-failure attempt, a
propagated `JSONDecodeError` re-raised after a final invalid-body
attempt, or the implicit `None` return when `retries = 0`. -/
inductive PfResult where
  | ok (productId : Option Nat) (productName : Option String)
  | requestError
  | jsonError
  | noneReturn
deriving DecidableEq, Repr

/-- The `for i in range(retries)` loop of `post_to_printful`: `i` is the
current iteration index, `remaining` the number of iterations left
(so the `i < retries - 1` test is `remaining > 1`), `delay` the current
backoff delay (doubled after each sleep).  `response.json()` sits inside
the `try`, and its `JSONDecodeError` (requests is unpinned, so the
modern, post-2.27 library applies) is a `RequestException`, so an
invalid-body attempt is caught and retried with backoff exactly like a
transport failure; only the exception re-raised after the final attempt
differs. -/
def postLoop (outcomes : Nat → AttemptOutcome) : Nat → Nat → Nat → List Event × PfResult
  | _, 0, _ => ([], .noneReturn)
  | i, r + 1, delay =>
    match outcomes i with
    | .httpOkJson pid pn => ([.printfulPost], .ok pid pn)
    | .httpOkInvalidJson =>
      if r = 0 then
        ([.printfulPost], .jsonError)
      else
        let rest := postLoop outcomes (i + 1) r (delay * 2)
        (.printfulPost :: .sleep delay :: rest.1, rest.2)
    | .transportError =>
      if r = 0 then
        ([.printfulPost], .requestError)
      else
        let rest := postLoop outcomes (i + 1) r (delay * 2)
        (.printfulPost :: .sleep delay :: rest.1, rest.2)

/-- Embedding of `post_to_printful(url, headers, payload, retries, delay)`.
The URL, headers and payload do not influence control flow and are
dropped; the outcome of attempt `i` is supplied by the oracle
`outcomes`.  The source call sites use the defaults `retries = 3`,
`delay = 5`. -/
def post_to_printful (outcomes : Nat → AttemptOutcome) (retries delay : Nat) :
    List Event × PfResult :=
  postLoop outcomes 0 retries delay

/-- The `VARIANT_MAP.get(product_type)` lookup: Mug 7710, T-Shirt 4017. -/
def variantLookup (pt : Option String) : Option Nat :=
  if pt = some "Mug" then some 7710
  else if pt = some "T-Shirt" then some 4017
  else none

/-- Embedding of `create_printful_product(job_doc)`.  Checks, in source
order: the `PRINTFUL_API_KEY` credential, the `imageUrl` field, the
`price` key (a missing key raises `KeyError`, caught and turned into
`False`), and the variant lookup; only then does it call
`post_to_printful` with the default retry budget.  A parsed response
yields `True`; a propagated exception is caught by the enclosing
`except Exception` and yields `False`. -/
def create_printful_product (printfulApiKey : Option String) (job : JobData)
    (outcomes : Nat → AttemptOutcome) : List Event × Bool :=
  if !strTruthy printfulApiKey then ([], false)
  else if !strTruthy job.imageUrl then ([], false)
  else if job.price.isNone then ([], false)
  else if !natOptTruthy (variantLookup job.productType) then ([], false)
  else
    let r := post_to_printful outcomes 3 5
    (r.1, match r.2 with
          | .ok _ _ => true
          | _ => false)

/-- The three Shopify environment variables read at startup. -/
structure ShopifyCreds where
  storeUrl : Option String
  apiKey : Option String
  apiPassword : Option String
deriving DecidableEq, Repr

/-- The `all([SHOPIFY_STORE_URL, SHOPIFY_API_KEY, SHOPIFY_API_PASSWORD])`
check. -/
def shopifyCredsOk (c : ShopifyCreds) : Bool :=
  strTruthy c.storeUrl && strTruthy c.apiKey && strTruthy c.apiPassword

/-- Outcome of one `new_product.save()` call: the SDK raises (network or
API error), returns `False` (validation errors), or returns `True`. -/
inductive SaveOutcome where
  | raiseError
  | returnsFalse
  | returnsTrue
deriving DecidableEq, Repr

/-- Embedding of `create_digital_product(job_doc)`.  Checks credentials,
then the `price` key (`KeyError` caught, returns `False`); then performs
a single `save()` call (oracle index 0).  A raise or a `False` return
yields `False`.  On a `True` return, if the job has a truthy `imageUrl`
a second `save()` (oracle index 1) attaches the image: a raise there is
caught by the enclosing `except` and yields `False`, otherwise the
worker returns `True`.  There is no retry loop around `save()`. -/
def create_digital_product (creds : ShopifyCreds) (job : JobData)
    (saves : Nat → SaveOutcome) : List Event × Bool :=
  if !shopifyCredsOk creds then ([], false)
  else if job.price.isNone then ([], false)
  else
    match saves 0 with
    | .raiseError => ([.shopifySave], false)
    | .returnsFalse => ([.shopifySave], false)
    | .returnsTrue =>
      if strTruthy job.imageUrl then
        match saves 1 with
        | .raiseError => ([.shopifySave, .shopifySave], false)
        | _ => ([.shopifySave, .shopifySave], true)
      else ([.shopifySave], true)

/-- Process-wide configuration read from the environment at startup. -/
structure Env where
  printfulApiKey : Option String
  shopify : ShopifyCreds
deriving DecidableEq, Repr

/-- The routing block of `process_job` (the body of its `try`): the
closed routing table over `productType`.  `"T-Shirt"` and `"Mug"` go to
the Printful worker, `"AI Prompt Package"` to the Shopify worker,
`"Tech Gadget"` is recognized but unsupported (immediate failure), and
everything else is an unknown route (immediate failure). -/
def routeJob (env : Env) (job : JobData) (pf : Nat → AttemptOutcome)
    (saves : Nat → SaveOutcome) : List Event × Bool :=
  if job.productType = some "T-Shirt" ∨ job.productType = some "Mug" then
    create_printful_product env.printfulApiKey job pf
  else if job.productType = some "AI Prompt Package" then
    create_digital_product env.shopify job saves
  else if job.productType = some "Tech Gadget" then ([], false)
  else ([], false)

/-- The routing block together with the dispatcher-level
`except Exception` handler: `routingRaises = true` models an unexpected
exception raised inside the `try` (before any worker effect), which the
handler converts into `success = False`. -/
def routedResult (env : Env) (job : JobData) (pf : Nat → AttemptOutcome)
    (saves : Nat → SaveOutcome) (routingRaises : Bool) : List Event × Bool :=
  if routingRaises then ([], false) else routeJob env job pf saves

/-- Embedding of `process_job(job_doc)`.  Step 1: attempt the claim
write `{"status": "processing"}`; `claimWriteOk = false` models the
store raising, which is caught and ignored.  Step 2/3: route and invoke
the worker inside `try/except`, capturing a boolean `success`.  Step 4:
attempt the final write, `"complete"` on success and `"failed"`
otherwise; this write is not guarded by a handler, so if the store
raises there (`finalWriteOk = false`) the exception escapes to the
caller — the returned `Option Unit` is `none` exactly in that case. -/
def process_job (env : Env) (job : JobData) (pf : Nat → AttemptOutcome)
    (saves : Nat → SaveOutcome) (claimWriteOk routingRaises finalWriteOk : Bool) :
    List Event × Option Unit :=
  let routed := routedResult env job pf saves routingRaises
  (Event.statusWriteAttempt "processing" claimWriteOk ::
     (routed.1 ++
       [Event.statusWriteAttempt (if routed.2 then "complete" else "failed") finalWriteOk]),
   if finalWriteOk then some () else none)

end Ghost

namespace Oracle

/-- A theme entry from the Oracle THEMES catalog: the fields consumed by
the document constructors.  The per-theme angle, platform and count
lists are catalog data; the random choices drawn from them are passed
to the constructors as parameters. -/
structure Theme where
  theme : String
  audience : String
  tag : String
deriving DecidableEq, Repr

/-- The slice of an Oracle product document that the job-lifecycle core
reads: lifecycle status, routing tag, digital marker and title.  The
remaining fields (hook lines, summary, payload hint, pricing heuristics,
timestamps) are marketing/bookkeeping content never consulted by the
dispatcher. -/
structure ProductDoc where
  status : String
  productType : String
  digitalOnly : Bool
  title : String
deriving DecidableEq, Repr

/-- Embedding of `_prompt_pack_doc(theme)`.  `angleTitled` is the
title-cased random angle choice, `count` the random prompt count. -/
def prompt_pack_doc (theme : Theme) (angleTitled : String) (count : Nat) : ProductDoc :=
  { status := "pending", productType := "prompt_pack", digitalOnly := true,
    title := theme.theme ++ " Prompt Pack: " ++ angleTitled ++ " ("
      ++ toString count ++ " prompts)" }

/-- Embedding of `_automation_kit_doc(theme)` with the random angle and
platform choices as parameters. -/
def automation_kit_doc (theme : Theme) (angleTitled platform : String) : ProductDoc :=
  { status := "pending", productType := "automation_kit", digitalOnly := true,
    title := theme.theme ++ " Automation Kit: " ++ angleTitled ++ " ("
      ++ platform ++ ")" }

/-- Embedding of `_bundle_doc(theme, prompt_component, auto_component)`.
The component references only populate the `bundle.includes` payload,
which the dispatcher never reads, so they are dropped here. -/
def bundle_doc (theme : Theme) : ProductDoc :=
  { status := "pending", productType := "bundle", digitalOnly := true,
    title := "LIMITED DROP: " ++ theme.theme ++ " Growth Bundle (Prompts + Automations)" }

/-- Leading-whitespace removal on a character list (structural model of
one side of Python `str.strip`). -/
def trimLeftChars : List Char → List Char
  | [] => []
  | c :: cs => if c.isWhitespace then trimLeftChars cs else c :: cs

/-- Model of Python `str.strip()`: drop whitespace from both ends. -/
def strTrim (s : String) : String :=
  ⟨(trimLeftChars (trimLeftChars s.data).reverse).reverse⟩

/-- Model of Python `str.lower()`. -/
def strToLower (s : String) : String :=
  ⟨s.data.map Char.toLower⟩

/-- Embedding of `_ensure_unique_title(doc, recent_titles)`; `suffix` is
the random suffix `_rand_suffix` would draw.  Only the title is ever
rewritten. -/
def ensure_unique_title (doc : ProductDoc) (recentTitles : List String)
    (suffix : String) : ProductDoc :=
  let t := strTrim doc.title
  if t = "" then { doc with title := "Untitled Digital Product " ++ suffix }
  else if recentTitles.contains (strToLower t) then
    { doc with title := t ++ " — v" ++ suffix }
  else doc

/-- Embedding of `_weighted_choice()`: `r` is the sample
`random.uniform(0, total)`; the loop accumulates the weights in order
prompt_pack, automation_kit, bundle and returns the first name whose
cumulative weight reaches `r`, falling back to `"bundle"`. -/
def weighted_choice (wPromptPack wAutomationKit wBundle r : Rat) : String :=
  if wPromptPack ≥ r then "prompt_pack"
  else if wPromptPack + wAutomationKit ≥ r then "automation_kit"
  else if wPromptPack + wAutomationKit + wBundle ≥ r then "bundle"
  else "bundle"

/-- The random draws and store lookups consumed by one iteration of the
`create_products_once` loop: the weighted-choice sample, the chosen
theme, the angle/platform/count choices fed to the constructors, the
suffixes `_rand_suffix` would produce, and whether
`_get_recent_components` found an existing prompt pack / automation kit
for the theme. -/
structure RunChoice where
  r : Rat
  theme : Theme
  promptAngle : String
  count : Nat
  autoAngle : String
  platform : String
  promptSuffix : String
  autoSuffix : String
  bundleSuffix : String
  recentPromptFound : Bool
  recentAutoFound : Bool
deriving DecidableEq, Repr

/-- One iteration of the `create_products_once` loop: returns the
documents written to the store this iteration and the updated
`recent_titles` accumulator (component titles are appended after
creation; bundle and non-bundle titles are not). -/
def runIteration (wPromptPack wAutomationKit wBundle : Rat) (acc : List String)
    (c : RunChoice) : List ProductDoc × List String :=
  let pt := weighted_choice wPromptPack wAutomationKit wBundle c.r
  if pt = "bundle" then
    let step1 : List ProductDoc × List String :=
      if c.recentPromptFound then ([], acc)
      else
        let d := ensure_unique_title (prompt_pack_doc c.theme c.promptAngle c.count)
          acc c.promptSuffix
        ([d], acc ++ [strToLower (strTrim d.title)])
    let step2 : List ProductDoc × List String :=
      if c.recentAutoFound then ([], step1.2)
      else
        let d := ensure_unique_title (automation_kit_doc c.theme c.autoAngle c.platform)
          step1.2 c.autoSuffix
        ([d], step1.2 ++ [strToLower (strTrim d.title)])
    let b := ensure_unique_title (bundle_doc c.theme) step2.2 c.bundleSuffix
    (step1.1 ++ step2.1 ++ [b], step2.2)
  else if pt = "prompt_pack" then
    ([ensure_unique_title (prompt_pack_doc c.theme c.promptAngle c.count) acc c.promptSuffix],
     acc)
  else
    ([ensure_unique_title (automation_kit_doc c.theme c.autoAngle c.platform) acc c.autoSuffix],
     acc)

/-- Embedding of `create_products_once()`: folds the per-iteration step
over the run choices (one per `PRODUCTS_PER_RUN` iteration), starting
from the `_recent_titles(db)` snapshot, and collects every document
written to the products collection. -/
def create_products_once (wPromptPack wAutomationKit wBundle : Rat) :
    List String → List RunChoice → List ProductDoc
  | _, [] => []
  | acc, c :: cs =>
    let step := runIteration wPromptPack wAutomationKit wBundle acc c
    step.1 ++ create_products_once wPromptPack wAutomationKit wBundle step.2 cs

/-- How a pending Oracle product document is seen by the Ghost
dispatcher when it arrives as a job: the document has no top-level
`price` or `imageUrl` key and its `productType` is the Oracle tag. -/
def jobOfDoc (d : ProductDoc) : Ghost.JobData :=
  { productType := some d.productType, title := some d.title, description := none,
    price := none, imageUrl := none, autoPublish := false }

end Oracle

/-- Shared concrete configuration used by the witness theorems: all
credentials present. -/
def wEnv : Ghost.Env :=
  { printfulApiKey := some "pf-key",
    shopify := { storeUrl := some "nexus.myshopify.com", apiKey := some "sk",
                 apiPassword := some "sp" } }

/-- Shared concrete configuration with no credentials set. -/
def wEmptyEnv : Ghost.Env :=
  { printfulApiKey := none,
    shopify := { storeUrl := none, apiKey := some "sk", apiPassword := some "sp" } }

/-- A Printful oracle whose first attempt succeeds. -/
def wPfOk : Nat → Ghost.AttemptOutcome := fun _ => .httpOkJson (some 321) (some "Mug Art")

/-- A Printful oracle that fails with a transport error on every attempt. -/
def wPfAllTransport : Nat → Ghost.AttemptOutcome := fun _ => .transportError

/-- A Printful oracle whose every attempt returns HTTP success with an
unparseable body. -/
def wPfInvalidBody : Nat → Ghost.AttemptOutcome := fun _ => .httpOkInvalidJson

/-- A Printful oracle whose first attempt returns HTTP success with an
unparseable body and whose later attempts succeed. -/
def wPfInvalidThenOk : Nat → Ghost.AttemptOutcome :=
  fun i => if i = 0 then .httpOkInvalidJson else .httpOkJson (some 321) (some "Mug Art")

/-- A job whose productType matches no routing branch at all. -/
def wUnknownTypeJob : Ghost.JobData :=
  { productType := some "Widget", title := some "Widget", description := none,
    price := some "10", imageUrl := some "https://x/img.png", autoPublish := false }

/-- A Shopify oracle whose every save succeeds. -/
def wSavesOk : Nat → Ghost.SaveOutcome := fun _ => .returnsTrue

/-- A Shopify oracle whose first save raises a transient network error
and whose later saves would succeed. -/
def wSavesFirstRaises : Nat → Ghost.SaveOutcome :=
  fun i => if i = 0 then .raiseError else .returnsTrue

/-- A valid Mug job (image and price present). -/
def wMugJob : Ghost.JobData :=
  { productType := some "Mug", title := some "Mug Art", description := none,
    price := some "18.50", imageUrl := some "https://x/img.png", autoPublish := false }

/-- A Mug job with no image. -/
def wMugNoImageJob : Ghost.JobData :=
  { productType := some "Mug", title := some "Mug Art", description := none,
    price := some "18.50", imageUrl := none, autoPublish := false }

/-- A Tech Gadget job (recognized but unsupported route). -/
def wTechGadgetJob : Ghost.JobData :=
  { productType := some "Tech Gadget", title := some "Gizmo", description := none,
    price := some "10", imageUrl := none, autoPublish := false }

/-- A digital product job for the Shopify route. -/
def wPromptJob : Ghost.JobData :=
  { productType := some "AI Prompt Package", title := some "Pack",
    description := some "desc", price := some "12.50", imageUrl := none,
    autoPublish := false }

/-- The theme drawn in the C5 witness run. -/
def wTheme : Oracle.Theme :=
  { theme := "Creator Growth", audience := "content creators", tag := "creator" }

/-- One Oracle run choice forcing a prompt-pack product. -/
def wRunChoice : Oracle.RunChoice :=
  { r := 1, theme := wTheme, promptAngle := "Hook Writing", count := 25,
    autoAngle := "Content Calendar", platform := "Notion", promptSuffix := "ab1cd",
    autoSuffix := "ef2gh", bundleSuffix := "ij3kl", recentPromptFound := false,
    recentAutoFound := false }

/-- The document that run writes. -/
def wOracleDoc : Oracle.ProductDoc :=
  Oracle.prompt_pack_doc wTheme "Hook Writing" 25

namespace Ghost

theorem statusAttempts_append (a b : List Event) :
    statusAttempts (a ++ b) = statusAttempts a ++ statusAttempts b :=
  List.filterMap_append a b _

theorem sleeps_append (a b : List Event) :
    sleeps (a ++ b) = sleeps a ++ sleeps b :=
  List.filterMap_append a b _

theorem outboundCount_append (a b : List Event) :
    outboundCount (a ++ b) = outboundCount a + outboundCount b :=
  List.countP_append _ a b

theorem postCount_append (a b : List Event) :
    postCount (a ++ b) = postCount a + postCount b :=
  List.countP_append _ a b

theorem postLoop_no_status (o : Nat → AttemptOutcome) :
    ∀ r i d, statusAttempts (postLoop o i r d).1 = [] := by
  intro r
  induction r with
  | zero => intro i d; simp [postLoop, statusAttempts]
  | succ n ih =>
    intro i d
    unfold postLoop
    cases o i with
    | httpOkJson pid pn => simp [statusAttempts]
    | httpOkInvalidJson =>
      by_cases hn : n = 0
      · simp [hn, statusAttempts]
      · simp only [hn, if_false, statusAttempts, List.filterMap_cons]
        exact ih (i + 1) (d * 2)
    | transportError =>
      by_cases hn : n = 0
      · simp [hn, statusAttempts]
      · simp only [hn, if_false, statusAttempts, List.filterMap_cons]
        exact ih (i + 1) (d * 2)

theorem postCount_cons_post (l : List Event) :
    postCount (Event.printfulPost :: l) = postCount l + 1 := by
  simp [postCount, List.countP_cons, isPost]

theorem postCount_cons_sleep (d : Nat) (l : List Event) :
    postCount (Event.sleep d :: l) = postCount l := by
  simp [postCount, List.countP_cons, isPost]

theorem postLoop_count_le (o : Nat → AttemptOutcome) :
    ∀ r i d, postCount (postLoop o i r d).1 ≤ r := by
  intro r
  induction r with
  | zero => intro i d; simp [postLoop, postCount]
  | succ n ih =>
    intro i d
    unfold postLoop
    cases o i with
    | httpOkJson pid pn => simp [postCount, List.countP_cons, isPost]
    | httpOkInvalidJson =>
      by_cases hn : n = 0
      · simp [hn, postCount, List.countP_cons, isPost]
      · simp only [hn, if_false]
        rw [postCount_cons_post, postCount_cons_sleep]
        have := ih (i + 1) (d * 2)
        omega
    | transportError =>
      by_cases hn : n = 0
      · simp [hn, postCount, List.countP_cons, isPost]
      · simp only [hn, if_false]
        rw [postCount_cons_post, postCount_cons_sleep]
        have := ih (i + 1) (d * 2)
        omega

theorem create_printful_trace_cases (k : Option String) (job : JobData)
    (o : Nat → AttemptOutcome) :
    create_printful_product k job o = ([], false) ∨
    (create_printful_product k job o).1 = (post_to_printful o 3 5).1 := by
  unfold create_printful_product
  by_cases h1 : strTruthy k
  · by_cases h2 : strTruthy job.imageUrl
    · by_cases h3 : job.price.isNone
      · left; simp [h1, h2, h3]
      · by_cases h4 : natOptTruthy (variantLookup job.productType)
        · right; simp [h1, h2, h3, h4]
        · left; simp [h1, h2, h3, h4]
    · left; simp [h1, h2]
  · left; simp [h1]

theorem create_printful_no_status (k : Option String) (job : JobData)
    (o : Nat → AttemptOutcome) :
    statusAttempts (create_printful_product k job o).1 = [] := by
  rcases create_printful_trace_cases k job o with h | h
  · rw [h]; rfl
  · rw [h]; exact postLoop_no_status o 3 0 5

theorem create_digital_trace_cases (c : ShopifyCreds) (job : JobData)
    (s : Nat → SaveOutcome) :
    (create_digital_product c job s).1 = [] ∨
    (create_digital_product c job s).1 = [.shopifySave] ∨
    (create_digital_product c job s).1 = [.shopifySave, .shopifySave] := by
  unfold create_digital_product
  by_cases h1 : shopifyCredsOk c
  · by_cases h2 : job.price.isNone
    · left; simp [h1, h2]
    · cases h3 : s 0 with
      | raiseError => right; left; simp [h1, h2, h3]
      | returnsFalse => right; left; simp [h1, h2, h3]
      | returnsTrue =>
        by_cases h4 : strTruthy job.imageUrl
        · cases h5 : s 1 with
          | raiseError => right; right; simp [h1, h2, h3, h4, h5]
          | returnsFalse => right; right; simp [h1, h2, h3, h4, h5]
          | returnsTrue => right; right; simp [h1, h2, h3, h4, h5]
        · right; left; simp [h1, h2, h3, h4]
  · left; simp [h1]

theorem create_digital_no_status (c : ShopifyCreds) (job : JobData)
    (s : Nat → SaveOutcome) :
    statusAttempts (create_digital_product c job s).1 = [] := by
  rcases create_digital_trace_cases c job s with h | h | h <;> rw [h] <;> rfl

theorem routeJob_no_status (env : Env) (job : JobData) (pf : Nat → AttemptOutcome)
    (saves : Nat → SaveOutcome) :
    statusAttempts (routeJob env job pf saves).1 = [] := by
  unfold routeJob
  split
  · exact create_printful_no_status _ _ _
  · split
    · exact create_digital_no_status _ _ _
    · split <;> rfl

theorem routedResult_no_status (env : Env) (job : JobData) (pf : Nat → AttemptOutcome)
    (saves : Nat → SaveOutcome) (rr : Bool) :
    statusAttempts (routedResult env job pf saves rr).1 = [] := by
  unfold routedResult
  split
  · rfl
  · exact routeJob_no_status env job pf saves

theorem process_job_statusAttempts (env : Env) (job : JobData)
    (pf : Nat → AttemptOutcome) (saves : Nat → SaveOutcome)
    (claimOk rr finalOk : Bool) :
    statusAttempts (process_job env job pf saves claimOk rr finalOk).1 =
      ["processing",
       if (routedResult env job pf saves rr).2 then "complete" else "failed"] := by
  show statusAttempts
      (Event.statusWriteAttempt "processing" claimOk ::
        ((routedResult env job pf saves rr).1 ++
          [Event.statusWriteAttempt
            (if (routedResult env job pf saves rr).2 then "complete" else "failed")
            finalOk])) = _
  simp only [statusAttempts, List.filterMap_cons, List.filterMap_append]
  have h := routedResult_no_status env job pf saves rr
  simp only [statusAttempts] at h
  rw [h]
  rfl

theorem process_job_outboundCount (env : Env) (job : JobData)
    (pf : Nat → AttemptOutcome) (saves : Nat → SaveOutcome)
    (claimOk rr finalOk : Bool) :
    outboundCount (process_job env job pf saves claimOk rr finalOk).1 =
      outboundCount (routedResult env job pf saves rr).1 := by
  show outboundCount
      (Event.statusWriteAttempt "processing" claimOk ::
        ((routedResult env job pf saves rr).1 ++
          [Event.statusWriteAttempt
            (if (routedResult env job pf saves rr).2 then "complete" else "failed")
            finalOk])) = _
  simp [outboundCount, List.countP_cons, List.countP_append, isOutbound]

theorem process_job_sleeps (env : Env) (job : JobData)
    (pf : Nat → AttemptOutcome) (saves : Nat → SaveOutcome)
    (claimOk rr finalOk : Bool) :
    sleeps (process_job env job pf saves claimOk rr finalOk).1 =
      sleeps (routedResult env job pf saves rr).1 := by
  show sleeps
      (Event.statusWriteAttempt "processing" claimOk ::
        ((routedResult env job pf saves rr).1 ++
          [Event.statusWriteAttempt
            (if (routedResult env job pf saves rr).2 then "complete" else "failed")
            finalOk])) = _
  simp [sleeps, List.filterMap_cons, List.filterMap_append]

theorem process_job_postCount (env : Env) (job : JobData)
    (pf : Nat → AttemptOutcome) (saves : Nat → SaveOutcome)
    (claimOk rr finalOk : Bool) :
    postCount (process_job env job pf saves claimOk rr finalOk).1 =
      postCount (routedResult env job pf saves rr).1 := by
  show postCount
      (Event.statusWriteAttempt "processing" claimOk ::
        ((routedResult env job pf saves rr).1 ++
          [Event.statusWriteAttempt
            (if (routedResult env job pf saves rr).2 then "complete" else "failed")
            finalOk])) = _
  simp [postCount, List.countP_cons, List.countP_append, isPost]

theorem routeJob_unknown (env : Env) (job : JobData) (pf : Nat → AttemptOutcome)
    (saves : Nat → SaveOutcome)
    (h1 : job.productType ≠ some "T-Shirt") (h2 : job.productType ≠ some "Mug")
    (h3 : job.productType ≠ some "AI Prompt Package") :
    routeJob env job pf saves = ([], false) := by
  unfold routeJob
  simp [h1, h2, h3]

theorem routedResult_unknown (env : Env) (job : JobData) (pf : Nat → AttemptOutcome)
    (saves : Nat → SaveOutcome) (rr : Bool)
    (h1 : job.productType ≠ some "T-Shirt") (h2 : job.productType ≠ some "Mug")
    (h3 : job.productType ≠ some "AI Prompt Package") :
    routedResult env job pf saves rr = ([], false) := by
  unfold routedResult
  split
  · rfl
  · exact routeJob_unknown env job pf saves h1 h2 h3

theorem post_to_printful_all_transport (o : Nat → AttemptOutcome)
    (h0 : o 0 = .transportError) (h1 : o 1 = .transportError)
    (h2 : o 2 = .transportError) :
    post_to_printful o 3 5 =
      ([.printfulPost, .sleep 5, .printfulPost, .sleep 10, .printfulPost],
       .requestError) := by
  simp [post_to_printful, postLoop, h0, h1, h2]

theorem post_to_printful_success_at (o : Nat → AttemptOutcome) (k : Nat)
    (hk : k < 3) (hpre : ∀ j, j < k → o j = .transportError)
    (pid : Option Nat) (pn : Option String) (hsucc : o k = .httpOkJson pid pn) :
    (post_to_printful o 3 5).2 = .ok pid pn
    ∧ postCount (post_to_printful o 3 5).1 = k + 1 := by
  interval_cases k
  · simp [post_to_printful, postLoop, hsucc, postCount, List.countP_cons, isPost]
  · have h0 := hpre 0 (by omega)
    simp [post_to_printful, postLoop, h0, hsucc, postCount, List.countP_cons, isPost]
  · have h0 := hpre 0 (by omega)
    have h1 := hpre 1 (by omega)
    simp [post_to_printful, postLoop, h0, h1, hsucc, postCount, List.countP_cons, isPost]

theorem post_to_printful_all_failing (o : Nat → AttemptOutcome)
    (hall : ∀ j, j < 3 → o j = .transportError ∨ o j = .httpOkInvalidJson) :
    ∃ res, (res = PfResult.requestError ∨ res = PfResult.jsonError)
    ∧ post_to_printful o 3 5 =
        ([.printfulPost, .sleep 5, .printfulPost, .sleep 10, .printfulPost], res)
    ∧ (o 2 = .transportError → res = .requestError)
    ∧ (o 2 = .httpOkInvalidJson → res = .jsonError) := by
  rcases hall 2 (by omega) with h2 | h2
  · refine ⟨.requestError, Or.inl rfl, ?_, fun _ => rfl, by simp [h2]⟩
    rcases hall 0 (by omega) with h0 | h0 <;> rcases hall 1 (by omega) with h1 | h1 <;>
      simp [post_to_printful, postLoop, h0, h1, h2]
  · refine ⟨.jsonError, Or.inr rfl, ?_, by simp [h2], fun _ => rfl⟩
    rcases hall 0 (by omega) with h0 | h0 <;> rcases hall 1 (by omega) with h1 | h1 <;>
      simp [post_to_printful, postLoop, h0, h1, h2]

theorem create_printful_valid (k : Option String) (job : JobData)
    (o : Nat → AttemptOutcome)
    (h1 : strTruthy k = true) (h2 : strTruthy job.imageUrl = true)
    (h3 : job.price.isNone = false)
    (h4 : natOptTruthy (variantLookup job.productType) = true) :
    create_printful_product k job o =
      ((post_to_printful o 3 5).1,
       match (post_to_printful o 3 5).2 with
       | .ok _ _ => true
       | _ => false) := by
  simp [create_printful_product, h1, h2, h3, h4]

theorem routedResult_mug (env : Env) (job : JobData) (pf : Nat → AttemptOutcome)
    (saves : Nat → SaveOutcome) (hm : job.productType = some "Mug") :
    routedResult env job pf saves false =
      create_printful_product env.printfulApiKey job pf := by
  simp [routedResult, routeJob, hm]

theorem routedResult_false (env : Env) (job : JobData) (pf : Nat → AttemptOutcome)
    (saves : Nat → SaveOutcome) :
    routedResult env job pf saves false = routeJob env job pf saves := rfl

theorem routeJob_pod (env : Env) (job : JobData) (pf : Nat → AttemptOutcome)
    (saves : Nat → SaveOutcome)
    (hm : job.productType = some "T-Shirt" ∨ job.productType = some "Mug") :
    routeJob env job pf saves = create_printful_product env.printfulApiKey job pf := by
  unfold routeJob
  rw [if_pos hm]

theorem routeJob_digital (env : Env) (job : JobData) (pf : Nat → AttemptOutcome)
    (saves : Nat → SaveOutcome) (hm : job.productType = some "AI Prompt Package") :
    routeJob env job pf saves = create_digital_product env.shopify job saves := by
  unfold routeJob
  have hno : ¬(job.productType = some "T-Shirt" ∨ job.productType = some "Mug") := by
    rw [hm]; simp
  rw [if_neg hno, if_pos hm]

theorem process_job_unknown_shape (env : Env) (job : JobData)
    (pf : Nat → AttemptOutcome) (saves : Nat → SaveOutcome)
    (claimOk rr finalOk : Bool)
    (h1 : job.productType ≠ some "T-Shirt") (h2 : job.productType ≠ some "Mug")
    (h3 : job.productType ≠ some "AI Prompt Package") :
    outboundCount (process_job env job pf saves claimOk rr finalOk).1 = 0
    ∧ statusAttempts (process_job env job pf saves claimOk rr finalOk).1
        = ["processing", "failed"] := by
  have hr := routedResult_unknown env job pf saves rr h1 h2 h3
  constructor
  · rw [process_job_outboundCount, hr]; rfl
  · rw [process_job_statusAttempts, hr]; rfl

theorem process_job_unknown_full (env : Env) (job : JobData)
    (pf : Nat → AttemptOutcome) (saves : Nat → SaveOutcome)
    (claimOk rr finalOk : Bool)
    (h1 : job.productType ≠ some "T-Shirt") (h2 : job.productType ≠ some "Mug")
    (h3 : job.productType ≠ some "AI Prompt Package") :
    outboundCount (process_job env job pf saves claimOk rr finalOk).1 = 0
    ∧ statusAttempts (process_job env job pf saves claimOk rr finalOk).1
        = ["processing", "failed"]
    ∧ sleeps (process_job env job pf saves claimOk rr finalOk).1 = []
    ∧ (process_job env job pf saves claimOk rr finalOk).1.getLast?
        = some (.statusWriteAttempt "failed" finalOk) := by
  have hr := routedResult_unknown env job pf saves rr h1 h2 h3
  refine ⟨?_, ?_, ?_, ?_⟩
  · rw [process_job_outboundCount, hr]; rfl
  · rw [process_job_statusAttempts, hr]; rfl
  · rw [process_job_sleeps, hr]; rfl
  · show (Event.statusWriteAttempt "processing" claimOk ::
        ((routedResult env job pf saves rr).1 ++
          [Event.statusWriteAttempt
            (if (routedResult env job pf saves rr).2 then "complete" else "failed")
            finalOk])).getLast? = _
    rw [← List.cons_append, List.getLast?_concat, hr]
    rfl

end Ghost

namespace Oracle

theorem ensure_unique_title_productType (d : ProductDoc) (r : List String)
    (s : String) : (ensure_unique_title d r s).productType = d.productType := by
  simp only [ensure_unique_title]
  split
  · rfl
  · split <;> rfl

theorem weighted_choice_cases (wp wa wb r : Rat) :
    weighted_choice wp wa wb r = "prompt_pack"
    ∨ weighted_choice wp wa wb r = "automation_kit"
    ∨ weighted_choice wp wa wb r = "bundle" := by
  unfold weighted_choice
  split
  · exact Or.inl rfl
  · split
    · exact Or.inr (Or.inl rfl)
    · split
      · exact Or.inr (Or.inr rfl)
      · exact Or.inr (Or.inr rfl)

theorem runIteration_types (wp wa wb : Rat) (acc : List String) (c : RunChoice)
    (doc : ProductDoc) (hmem : doc ∈ (runIteration wp wa wb acc c).1) :
    doc.productType = "prompt_pack" ∨ doc.productType = "automation_kit"
    ∨ doc.productType = "bundle" := by
  rcases weighted_choice_cases wp wa wb c.r with h | h | h
  · simp [runIteration, h] at hmem
    subst_vars
    simp [ensure_unique_title_productType, prompt_pack_doc]
  · simp [runIteration, h] at hmem
    subst_vars
    simp [ensure_unique_title_productType, automation_kit_doc]
  · cases hb2 : c.recentPromptFound <;> cases hb3 : c.recentAutoFound <;>
      simp [runIteration, h, hb2, hb3] at hmem
    all_goals try casesm* _ ∨ _
    all_goals subst_vars
    all_goals simp [ensure_unique_title_productType, prompt_pack_doc,
      automation_kit_doc, bundle_doc]

theorem create_products_once_types (wp wa wb : Rat) :
    ∀ (choices : List RunChoice) (acc : List String) (doc : ProductDoc),
      doc ∈ create_products_once wp wa wb acc choices →
      doc.productType = "prompt_pack" ∨ doc.productType = "automation_kit"
      ∨ doc.productType = "bundle" := by
  intro choices
  induction choices with
  | nil => intro acc doc h; simp [create_products_once] at h
  | cons c cs ih =>
    intro acc doc h
    simp only [create_products_once, List.mem_append] at h
    rcases h with h | h
    · exact runIteration_types wp wa wb acc c doc h
    · exact ih _ doc h

end Oracle

section Claims

open Ghost Oracle

/-- C1: within one `process_job` invocation the status field is only
ever written in the order pending → processing → (complete or failed):
the dispatcher never writes `pending`, the `processing` write comes
first, exactly one terminal write follows it, and nothing is written
after the terminal write. -/
theorem C1_status_monotonic_acyclic (env : Ghost.Env) (job : Ghost.JobData)
    (pf : Nat → Ghost.AttemptOutcome) (saves : Nat → Ghost.SaveOutcome)
    (claimOk rr finalOk : Bool) :
    "pending" ∉
      Ghost.statusAttempts (Ghost.process_job env job pf saves claimOk rr finalOk).1
    ∧ (Ghost.statusAttempts (Ghost.process_job env job pf saves claimOk rr finalOk).1
         = ["processing", "complete"]
       ∨ Ghost.statusAttempts (Ghost.process_job env job pf saves claimOk rr finalOk).1
         = ["processing", "failed"]) := by
  rw [Ghost.process_job_statusAttempts]
  constructor
  · split <;> decide
  · split
    · left; rfl
    · right; rfl

/-- C2: a job whose `productType` is none of T-Shirt, Mug, AI Prompt
Package (the recognized-but-unsupported Tech Gadget, unknown values,
and a missing key alike) produces zero outbound remote-creation calls
and zero backoff sleeps, its status-write sequence is exactly
processing then failed, and the invocation ends with the failed status
write. -/
theorem C2_unrouted_type_fails_no_calls (env : Ghost.Env) (job : Ghost.JobData)
    (pf : Nat → Ghost.AttemptOutcome) (saves : Nat → Ghost.SaveOutcome)
    (claimOk rr finalOk : Bool)
    (h1 : job.productType ≠ some "T-Shirt") (h2 : job.productType ≠ some "Mug")
    (h3 : job.productType ≠ some "AI Prompt Package") :
    Ghost.outboundCount (Ghost.process_job env job pf saves claimOk rr finalOk).1 = 0
    ∧ Ghost.statusAttempts (Ghost.process_job env job pf saves claimOk rr finalOk).1
        = ["processing", "failed"]
    ∧ Ghost.sleeps (Ghost.process_job env job pf saves claimOk rr finalOk).1 = []
    ∧ (Ghost.process_job env job pf saves claimOk rr finalOk).1.getLast?
        = some (.statusWriteAttempt "failed" finalOk) :=
  Ghost.process_job_unknown_full env job pf saves claimOk rr finalOk h1 h2 h3

/-- Witness for C2 at the Tech Gadget job and at a fully unknown
productType. -/
theorem C2_witness :
    Ghost.outboundCount
        (Ghost.process_job wEnv wTechGadgetJob wPfOk wSavesOk true false true).1 = 0
    ∧ Ghost.statusAttempts
        (Ghost.process_job wEnv wTechGadgetJob wPfOk wSavesOk true false true).1
        = ["processing", "failed"]
    ∧ Ghost.outboundCount
        (Ghost.process_job wEnv wUnknownTypeJob wPfOk wSavesOk true false true).1 = 0
    ∧ Ghost.statusAttempts
        (Ghost.process_job wEnv wUnknownTypeJob wPfOk wSavesOk true false true).1
        = ["processing", "failed"] := by
  have hg := C2_unrouted_type_fails_no_calls wEnv wTechGadgetJob wPfOk wSavesOk
    true false true (by decide) (by decide) (by decide)
  have hu := C2_unrouted_type_fails_no_calls wEnv wUnknownTypeJob wPfOk wSavesOk
    true false true (by decide) (by decide) (by decide)
  exact ⟨hg.1, hg.2.1, hu.1, hu.2.1⟩

/-- C4: the dispatcher converts claim-write failures and errors raised
during routing or worker invocation into a failure outcome instead of
raising; the final status write (complete on success, failed otherwise)
is the last event of every invocation, attempted for every combination
of claim-write failure and routing error; and whenever the final write
itself does not raise, `process_job` returns normally. -/
theorem C4_exceptions_converted_final_write_unconditional (env : Ghost.Env)
    (job : Ghost.JobData) (pf : Nat → Ghost.AttemptOutcome)
    (saves : Nat → Ghost.SaveOutcome) (claimOk rr finalOk : Bool) :
    (Ghost.process_job env job pf saves claimOk rr true).2 = some ()
    ∧ (∃ s, (s = "complete" ∨ s = "failed") ∧
        (Ghost.process_job env job pf saves claimOk rr finalOk).1.getLast? =
          some (.statusWriteAttempt s finalOk))
    ∧ (Ghost.process_job env job pf saves claimOk true finalOk).1.getLast? =
        some (.statusWriteAttempt "failed" finalOk) := by
  refine ⟨rfl, ?_, ?_⟩
  · refine ⟨if (Ghost.routedResult env job pf saves rr).2 then "complete" else "failed",
      ?_, ?_⟩
    · split
      · left; rfl
      · right; rfl
    · show (Event.statusWriteAttempt "processing" claimOk ::
          ((Ghost.routedResult env job pf saves rr).1 ++
            [Event.statusWriteAttempt _ finalOk])).getLast? = _
      rw [← List.cons_append, List.getLast?_concat]
  · show (Event.statusWriteAttempt "processing" claimOk ::
        ((Ghost.routedResult env job pf saves true).1 ++
          [Event.statusWriteAttempt _ finalOk])).getLast? = _
    rw [← List.cons_append, List.getLast?_concat]
    rfl

/-- C10: neither worker ever writes the job status (their traces hold no
status-write events, for every input and oracle), and every invocation
of the dispatcher performs exactly the two status writes processing and
then a terminal value — the status field has a single writer. -/
theorem C10_workers_never_write_status (k : Option String)
    (creds : Ghost.ShopifyCreds) (jobA jobB jobC : Ghost.JobData)
    (pf : Nat → Ghost.AttemptOutcome) (saves : Nat → Ghost.SaveOutcome)
    (env : Ghost.Env) (claimOk rr finalOk : Bool) :
    Ghost.statusAttempts (Ghost.create_printful_product k jobA pf).1 = []
    ∧ Ghost.statusAttempts (Ghost.create_digital_product creds jobB saves).1 = []
    ∧ ∃ s, (s = "complete" ∨ s = "failed") ∧
        Ghost.statusAttempts (Ghost.process_job env jobC pf saves claimOk rr finalOk).1
          = ["processing", s] := by
  refine ⟨Ghost.create_printful_no_status k jobA pf,
    Ghost.create_digital_no_status creds jobB saves,
    if (Ghost.routedResult env jobC pf saves rr).2 then "complete" else "failed",
    ?_, Ghost.process_job_statusAttempts env jobC pf saves claimOk rr finalOk⟩
  split
  · left; rfl
  · right; rfl

/-- C3: with the default budget (retries 3, base delay 5) the Printful
helper makes at most 3 POST attempts for every oracle; a first
non-transport outcome at attempt k (after k transport failures) stops
the loop at exactly k+1 attempts with the parsed response; when every
attempt fails with a transport error it makes exactly 3 attempts with
backoff sleeps of 5 then 10 seconds and propagates the failure, which
the dispatcher records as a failed job. -/
theorem C3_printful_retry_policy (outcomes : Nat → Ghost.AttemptOutcome) :
    Ghost.postCount (Ghost.post_to_printful outcomes 3 5).1 ≤ 3
    ∧ (∀ k, k < 3 → (∀ j, j < k → outcomes j = .transportError) →
        ∀ pid pn, outcomes k = .httpOkJson pid pn →
          (Ghost.post_to_printful outcomes 3 5).2 = .ok pid pn
          ∧ Ghost.postCount (Ghost.post_to_printful outcomes 3 5).1 = k + 1)
    ∧ ((∀ j, j < 3 → outcomes j = .transportError) →
        Ghost.post_to_printful outcomes 3 5 =
          ([.printfulPost, .sleep 5, .printfulPost, .sleep 10, .printfulPost],
           .requestError))
    ∧ (∀ env job saves claimOk finalOk,
        (∀ j, j < 3 → outcomes j = .transportError) →
        job.productType = some "Mug" →
        Ghost.strTruthy env.printfulApiKey = true →
        Ghost.strTruthy job.imageUrl = true →
        job.price.isNone = false →
        Ghost.statusAttempts
            (Ghost.process_job env job outcomes saves claimOk false finalOk).1
          = ["processing", "failed"]
        ∧ Ghost.postCount
            (Ghost.process_job env job outcomes saves claimOk false finalOk).1 = 3) := by
  refine ⟨Ghost.postLoop_count_le outcomes 3 0 5, ?_, ?_, ?_⟩
  · intro k hk hpre pid pn hsucc
    exact Ghost.post_to_printful_success_at outcomes k hk hpre pid pn hsucc
  · intro hall
    exact Ghost.post_to_printful_all_transport outcomes (hall 0 (by omega))
      (hall 1 (by omega)) (hall 2 (by omega))
  · intro env job saves claimOk finalOk hall hm hkey himg hpr
    have hpf := Ghost.post_to_printful_all_transport outcomes (hall 0 (by omega))
      (hall 1 (by omega)) (hall 2 (by omega))
    have h4 : Ghost.natOptTruthy (Ghost.variantLookup job.productType) = true := by
      rw [hm]; decide
    have hw := Ghost.create_printful_valid env.printfulApiKey job outcomes
      hkey himg hpr h4
    rw [hpf] at hw
    have hroute := Ghost.routedResult_mug env job outcomes saves hm
    rw [hw] at hroute
    constructor
    · rw [Ghost.process_job_statusAttempts, hroute]
      rfl
    · rw [Ghost.process_job_postCount, hroute]
      decide

/-- Witness for C3: the all-transport oracle on a valid Mug job. -/
theorem C3_witness :
    Ghost.post_to_printful wPfAllTransport 3 5 =
      ([.printfulPost, .sleep 5, .printfulPost, .sleep 10, .printfulPost],
       .requestError)
    ∧ Ghost.statusAttempts
        (Ghost.process_job wEnv wMugJob wPfAllTransport wSavesOk true false true).1
      = ["processing", "failed"] := by
  refine ⟨(C3_printful_retry_policy wPfAllTransport).2.2.1 (fun j hj => rfl), ?_⟩
  exact ((C3_printful_retry_policy wPfAllTransport).2.2.2 wEnv wMugJob wSavesOk true
    true (fun j hj => rfl) rfl rfl rfl rfl).1

/-- C7 counterexample: a first attempt that returns HTTP success with an
unparseable body, followed by an attempt that would parse, shows the
invalid-body attempt being retried: the run makes a backoff sleep and a
second POST and returns the second response — whereas the claim
predicts the invalid-body failure propagates with no retry. -/
theorem C7_counterexample :
    wPfInvalidThenOk 0 = Ghost.AttemptOutcome.httpOkInvalidJson
    ∧ Ghost.post_to_printful wPfInvalidThenOk 3 5 =
        ([.printfulPost, .sleep 5, .printfulPost], .ok (some 321) (some "Mug Art"))
    ∧ Ghost.postCount (Ghost.post_to_printful wPfInvalidThenOk 3 5).1 = 2 := by
  refine ⟨rfl, by decide, by decide⟩

/-- C7 as amended: an HTTP success whose body cannot be parsed as JSON
is treated as a retryable failure exactly like a transport error,
because the `JSONDecodeError` raised by `response.json()` inside the
`try` is a `RequestException` caught by the retry clause: a non-final
invalid-body attempt is followed by a backoff sleep and a further
attempt, and when every attempt fails (transport or invalid body) the
loop makes exactly 3 attempts with sleeps 5 and 10 and propagates the
final error — the JSON error when the last attempt had an invalid body —
which the worker converts into a failure outcome. -/
theorem C7_invalid_body_retried_like_transport (outcomes : Nat → Ghost.AttemptOutcome) :
    (outcomes 0 = .httpOkInvalidJson →
      Ghost.post_to_printful outcomes 3 5 =
        (.printfulPost :: .sleep 5 :: (Ghost.postLoop outcomes 1 2 10).1,
         (Ghost.postLoop outcomes 1 2 10).2))
    ∧ ((∀ j, j < 3 →
          outcomes j = .transportError ∨ outcomes j = .httpOkInvalidJson) →
        (Ghost.post_to_printful outcomes 3 5).1 =
          [.printfulPost, .sleep 5, .printfulPost, .sleep 10, .printfulPost]
        ∧ (outcomes 2 = .transportError →
            (Ghost.post_to_printful outcomes 3 5).2 = .requestError)
        ∧ (outcomes 2 = .httpOkInvalidJson →
            (Ghost.post_to_printful outcomes 3 5).2 = .jsonError)
        ∧ ∀ key job, (Ghost.create_printful_product key job outcomes).2 = false) := by
  constructor
  · intro h0
    simp [Ghost.post_to_printful, Ghost.postLoop, h0]
  · intro hall
    obtain ⟨res, hres, heq, ht, hj⟩ := Ghost.post_to_printful_all_failing outcomes hall
    refine ⟨by rw [heq], fun h => by rw [heq]; exact ht h,
      fun h => by rw [heq]; exact hj h, ?_⟩
    intro key job
    by_cases ha : Ghost.strTruthy key
    · by_cases hb : Ghost.strTruthy job.imageUrl
      · by_cases hc : job.price.isNone
        · simp [Ghost.create_printful_product, ha, hb, hc]
        · by_cases hd : Ghost.natOptTruthy (Ghost.variantLookup job.productType)
          · have hc2 : job.price.isNone = false := by
              cases hcc : job.price.isNone
              · rfl
              · exact absurd hcc hc
            rw [Ghost.create_printful_valid key job outcomes ha hb hc2 hd, heq]
            rcases hres with h | h <;> rw [h]
          · simp [Ghost.create_printful_product, ha, hb, hc, hd]
      · simp [Ghost.create_printful_product, ha, hb]
    · simp [Ghost.create_printful_product, ha]

/-- Witness for the amended C7: every attempt returns an invalid body. -/
theorem C7_witness :
    Ghost.post_to_printful wPfInvalidBody 3 5 =
      (.printfulPost :: .sleep 5 :: (Ghost.postLoop wPfInvalidBody 1 2 10).1,
       (Ghost.postLoop wPfInvalidBody 1 2 10).2)
    ∧ (Ghost.post_to_printful wPfInvalidBody 3 5).1 =
        [.printfulPost, .sleep 5, .printfulPost, .sleep 10, .printfulPost]
    ∧ (Ghost.post_to_printful wPfInvalidBody 3 5).2 = .jsonError
    ∧ (Ghost.create_printful_product wEnv.printfulApiKey wMugJob wPfInvalidBody).2
        = false := by
  have h := C7_invalid_body_retried_like_transport wPfInvalidBody
  have hb := h.2 (fun j hj => Or.inr rfl)
  exact ⟨h.1 rfl, hb.1, hb.2.2.1 rfl, hb.2.2.2 wEnv.printfulApiKey wMugJob⟩

/-- C6: a job routed to the Printful worker that is missing a required
field (no truthy imageUrl, or no price key) makes the worker return
failure with an empty trace — no HTTP request is ever sent — and the
dispatched job ends with a final failed write and zero outbound calls. -/
theorem C6_pod_missing_field_fails_fast (k : Option String) (job : Ghost.JobData)
    (pf : Nat → Ghost.AttemptOutcome)
    (h : Ghost.strTruthy job.imageUrl = false ∨ job.price.isNone = true) :
    Ghost.create_printful_product k job pf = ([], false)
    ∧ (∀ env saves claimOk finalOk,
        env.printfulApiKey = k →
        (job.productType = some "T-Shirt" ∨ job.productType = some "Mug") →
        Ghost.outboundCount
            (Ghost.process_job env job pf saves claimOk false finalOk).1 = 0
        ∧ Ghost.statusAttempts
            (Ghost.process_job env job pf saves claimOk false finalOk).1
          = ["processing", "failed"]) := by
  have hw : Ghost.create_printful_product k job pf = ([], false) := by
    by_cases ha : Ghost.strTruthy k
    · rcases h with h | h
      · simp [Ghost.create_printful_product, ha, h]
      · by_cases hb : Ghost.strTruthy job.imageUrl
        · simp [Ghost.create_printful_product, ha, hb, h]
        · simp [Ghost.create_printful_product, ha, hb]
    · simp [Ghost.create_printful_product, ha]
  refine ⟨hw, ?_⟩
  intro env saves claimOk finalOk hk hroute
  have hr : Ghost.routedResult env job pf saves false = ([], false) := by
    rw [Ghost.routedResult_false, Ghost.routeJob_pod env job pf saves hroute, hk, hw]
  constructor
  · rw [Ghost.process_job_outboundCount, hr]; rfl
  · rw [Ghost.process_job_statusAttempts, hr]; rfl

/-- Witness for C6: a Mug job without an image. -/
theorem C6_witness :
    Ghost.create_printful_product wEnv.printfulApiKey wMugNoImageJob wPfOk = ([], false)
    ∧ Ghost.outboundCount
        (Ghost.process_job wEnv wMugNoImageJob wPfOk wSavesOk true false true).1 = 0 := by
  have h := C6_pod_missing_field_fails_fast wEnv.printfulApiKey wMugNoImageJob wPfOk
    (Or.inl rfl)
  exact ⟨h.1, (h.2 wEnv wSavesOk true true rfl (Or.inr rfl)).1⟩

/-- C8 counterexample: with valid credentials and a priced job, a
Shopify oracle whose first save raises a transient error and whose
second save would succeed still yields a single save attempt, no
backoff sleep, and a failure outcome — the digital worker does not
retry, so the claimed bounded-retry-with-backoff behavior is false on
the code. -/
theorem C8_counterexample :
    wSavesFirstRaises 1 = Ghost.SaveOutcome.returnsTrue
    ∧ Ghost.create_digital_product wEnv.shopify wPromptJob wSavesFirstRaises
        = ([.shopifySave], false)
    ∧ Ghost.sleeps
        (Ghost.create_digital_product wEnv.shopify wPromptJob wSavesFirstRaises).1
        = [] := by
  refine ⟨rfl, by decide, by decide⟩

/-- C8 as amended: the digital worker performs no retry and no backoff:
with credentials and price present, a transient failure of the first
save call immediately yields a failure outcome after exactly that one
attempt; over all oracles its trace holds at most two save calls (the
second only for the post-success image attach) and never a sleep. -/
theorem C8_digital_single_attempt (creds : Ghost.ShopifyCreds) (job : Ghost.JobData)
    (saves : Nat → Ghost.SaveOutcome)
    (hc : Ghost.shopifyCredsOk creds = true) (hp : job.price.isNone = false)
    (hr : saves 0 = .raiseError) :
    Ghost.create_digital_product creds job saves = ([.shopifySave], false)
    ∧ (∀ s2, Ghost.outboundCount (Ghost.create_digital_product creds job s2).1 ≤ 2
        ∧ Ghost.sleeps (Ghost.create_digital_product creds job s2).1 = []) := by
  constructor
  · simp [Ghost.create_digital_product, hc, hp, hr]
  · intro s2
    rcases Ghost.create_digital_trace_cases creds job s2 with h | h | h <;>
      rw [h] <;> exact ⟨by decide, rfl⟩

/-- Witness for the amended C8. -/
theorem C8_witness :
    Ghost.create_digital_product wEnv.shopify wPromptJob wSavesFirstRaises
        = ([.shopifySave], false)
    ∧ Ghost.outboundCount
        (Ghost.create_digital_product wEnv.shopify wPromptJob wSavesOk).1 ≤ 2 := by
  have h := C8_digital_single_attempt wEnv.shopify wPromptJob wSavesFirstRaises
    (by decide) (by decide) rfl
  exact ⟨h.1, (h.2 wSavesOk).1⟩

/-- C9: when the static credentials of a route are unset, the worker of
that route returns failure with an empty trace before any remote call, and the
dispatched job ends failed with zero outbound calls, zero backoff
sleeps, and a normal return from `process_job`. -/
theorem C9_missing_credentials_always_fail (env : Ghost.Env) (job : Ghost.JobData)
    (pf : Nat → Ghost.AttemptOutcome) (saves : Nat → Ghost.SaveOutcome)
    (claimOk : Bool) :
    (Ghost.strTruthy env.printfulApiKey = false →
      Ghost.create_printful_product env.printfulApiKey job pf = ([], false)
      ∧ ((job.productType = some "T-Shirt" ∨ job.productType = some "Mug") →
          Ghost.outboundCount
              (Ghost.process_job env job pf saves claimOk false true).1 = 0
          ∧ Ghost.sleeps (Ghost.process_job env job pf saves claimOk false true).1 = []
          ∧ Ghost.statusAttempts
              (Ghost.process_job env job pf saves claimOk false true).1
            = ["processing", "failed"]
          ∧ (Ghost.process_job env job pf saves claimOk false true).2 = some ()))
    ∧ (Ghost.shopifyCredsOk env.shopify = false →
      Ghost.create_digital_product env.shopify job saves = ([], false)
      ∧ (job.productType = some "AI Prompt Package" →
          Ghost.outboundCount
              (Ghost.process_job env job pf saves claimOk false true).1 = 0
          ∧ Ghost.sleeps (Ghost.process_job env job pf saves claimOk false true).1 = []
          ∧ Ghost.statusAttempts
              (Ghost.process_job env job pf saves claimOk false true).1
            = ["processing", "failed"]
          ∧ (Ghost.process_job env job pf saves claimOk false true).2 = some ())) := by
  constructor
  · intro hkey
    have hw : Ghost.create_printful_product env.printfulApiKey job pf = ([], false) := by
      simp [Ghost.create_printful_product, hkey]
    refine ⟨hw, ?_⟩
    intro hroute
    have hr : Ghost.routedResult env job pf saves false = ([], false) := by
      rw [Ghost.routedResult_false, Ghost.routeJob_pod env job pf saves hroute, hw]
    refine ⟨?_, ?_, ?_, rfl⟩
    · rw [Ghost.process_job_outboundCount, hr]; rfl
    · rw [Ghost.process_job_sleeps, hr]; rfl
    · rw [Ghost.process_job_statusAttempts, hr]; rfl
  · intro hcred
    have hw : Ghost.create_digital_product env.shopify job saves = ([], false) := by
      simp [Ghost.create_digital_product, hcred]
    refine ⟨hw, ?_⟩
    intro hroute
    have hr : Ghost.routedResult env job pf saves false = ([], false) := by
      rw [Ghost.routedResult_false, Ghost.routeJob_digital env job pf saves hroute, hw]
    refine ⟨?_, ?_, ?_, rfl⟩
    · rw [Ghost.process_job_outboundCount, hr]; rfl
    · rw [Ghost.process_job_sleeps, hr]; rfl
    · rw [Ghost.process_job_statusAttempts, hr]; rfl

/-- Witness for C9: an environment with no Printful key and no Shopify
store URL. -/
theorem C9_witness :
    Ghost.create_printful_product wEmptyEnv.printfulApiKey wMugJob wPfOk = ([], false)
    ∧ Ghost.create_digital_product wEmptyEnv.shopify wPromptJob wSavesOk = ([], false)
    ∧ Ghost.statusAttempts
        (Ghost.process_job wEmptyEnv wMugJob wPfOk wSavesOk true false true).1
      = ["processing", "failed"] := by
  have h := C9_missing_credentials_always_fail wEmptyEnv wMugJob wPfOk wSavesOk true
  have h2 := C9_missing_credentials_always_fail wEmptyEnv wPromptJob wPfOk wSavesOk true
  exact ⟨(h.1 rfl).1, (h2.2 rfl).1, ((h.1 rfl).2 (Or.inr rfl)).2.2.1⟩

/-- C5: every document written by the Oracle producer carries a
`productType` of prompt_pack, automation_kit or bundle; none of these
values is in the Ghost routing table (in particular the Printful variant
map has no entry for them), so each such document, dispatched as a job,
takes the unknown-route branch: zero outbound calls and a final failed
status write. -/
theorem C5_oracle_products_unroutable (wp wa wb : Rat) (acc : List String)
    (choices : List Oracle.RunChoice) (doc : Oracle.ProductDoc)
    (hmem : doc ∈ Oracle.create_products_once wp wa wb acc choices) :
    (doc.productType = "prompt_pack" ∨ doc.productType = "automation_kit"
      ∨ doc.productType = "bundle")
    ∧ Ghost.variantLookup (some doc.productType) = none
    ∧ (∀ env pf saves claimOk finalOk,
        Ghost.outboundCount
            (Ghost.process_job env (Oracle.jobOfDoc doc) pf saves claimOk false
              finalOk).1 = 0
        ∧ Ghost.statusAttempts
            (Ghost.process_job env (Oracle.jobOfDoc doc) pf saves claimOk false
              finalOk).1 = ["processing", "failed"]) := by
  have ht := Oracle.create_products_once_types wp wa wb choices acc doc hmem
  have h1 : (Oracle.jobOfDoc doc).productType ≠ some "T-Shirt" := by
    simp only [Oracle.jobOfDoc, Option.some.injEq]
    rcases ht with h | h | h <;> rw [h] <;> decide
  have h2 : (Oracle.jobOfDoc doc).productType ≠ some "Mug" := by
    simp only [Oracle.jobOfDoc, Option.some.injEq]
    rcases ht with h | h | h <;> rw [h] <;> decide
  have h3 : (Oracle.jobOfDoc doc).productType ≠ some "AI Prompt Package" := by
    simp only [Oracle.jobOfDoc, Option.some.injEq]
    rcases ht with h | h | h <;> rw [h] <;> decide
  refine ⟨ht, ?_, ?_⟩
  · rcases ht with h | h | h <;> rw [h] <;> decide
  · intro env pf saves claimOk finalOk
    exact Ghost.process_job_unknown_shape env (Oracle.jobOfDoc doc) pf saves claimOk
      false finalOk h1 h2 h3

/-- Witness for C5: a one-product Oracle run whose weighted choice
lands on prompt_pack. -/
theorem C5_witness :
    wOracleDoc ∈ Oracle.create_products_once 1 0 0 [] [wRunChoice]
    ∧ Ghost.outboundCount
        (Ghost.process_job wEnv (Oracle.jobOfDoc wOracleDoc) wPfOk wSavesOk true
          false true).1 = 0
    ∧ Ghost.statusAttempts
        (Ghost.process_job wEnv (Oracle.jobOfDoc wOracleDoc) wPfOk wSavesOk true
          false true).1 = ["processing", "failed"] := by
  have hmem : wOracleDoc ∈ Oracle.create_products_once 1 0 0 [] [wRunChoice] := by
    decide
  have h := C5_oracle_products_unroutable 1 0 0 [] [wRunChoice] wOracleDoc hmem
  exact ⟨hmem, (h.2.2 wEnv wPfOk wSavesOk true true).1,
    (h.2.2 wEnv wPfOk wSavesOk true true).2⟩

end Claims
